import Mathlib

/-
  Verification of the Spectrogram Processor (src/Spectrogram.py) against its
  natural-language specification.

  The repository is a thin orchestration layer around two external DSP
  libraries (scipy.signal and librosa).  The orchestration, state handling,
  key layout of the persisted JSON document and the input guards are
  translated from the source; the external numeric routines are modelled
  from the spec, with the purely numeric short-time Fourier kernel kept as
  an explicit parameter (structure ExternalDSP) since no claim depends on
  its numeric values.
-/

deriving instance DecidableEq for Except

/-- Python exceptions that the modelled code paths can raise. -/
inductive PyErr where
  | valueError (msg : String)
  | attributeError (msg : String)
  | parameterError (msg : String)
  | typeError (msg : String)
  deriving DecidableEq

/-- Result triple of scipy.signal.spectrogram: sampled frequencies, sampled
times and the intensity (color mesh) matrix, indexed [frequency][time]. -/
structure STFTResult where
  sampleFreqs : List ℚ
  sampleTime : List ℚ
  colorMesh : List (List ℚ)
  deriving DecidableEq

/-- FeatureBundle of spec §3: spectral centroid and roll-off per time bin,
and the mel-scaled spectrogram matrix. -/
structure FeatureBundle where
  centroid : List ℚ
  rolloff : List ℚ
  melSpectrogram : List (List ℚ)
  deriving DecidableEq

/-- JSON values that can appear in the persisted document. -/
inductive JValue where
  | jnull
  | jlist (xs : List ℚ)
  | jmat (m : List (List ℚ))
  | jfeatures (fb : FeatureBundle)
  deriving DecidableEq

/-- Instance state of the spectrogram class: the five attributes set in
`__init__`, each initialised to Python None (modelled as Option.none). -/
structure SpectroState where
  sampleFreqs : Option (List ℚ)
  sampleTime : Option (List ℚ)
  colorMesh : Option (List (List ℚ))
  features : Option FeatureBundle
  container : Option (List (String × JValue))
  deriving DecidableEq

/-- State right after `__init__`: every attribute is None. -/
def initState : SpectroState :=
  { sampleFreqs := none, sampleTime := none, colorMesh := none,
    features := none, container := none }

/-- Input waveform: a 1-D numpy array (mono) or a 2-D rectangular table;
`len(songData.shape) == 2` distinguishes the two in the source. -/
inductive Waveform where
  | oneD (xs : List ℚ)
  | twoD (rows : List (List ℚ))
  deriving DecidableEq

/-- Record of one file written by json.dump inside `_saveFormat`. -/
structure FileWrite where
  path : String
  content : List (String × JValue)
  deriving DecidableEq

/-- External numeric routines, kept as parameters: the numeric core of
scipy.signal.spectrogram, the spectrogram librosa computes from a raw
waveform when no S is given, and librosa's mel filter bank (a function of
the sample rate and the number of frequency rows).  Every claim below is
proved for all instantiations, or witnessed on the concrete instance E₀. -/
structure ExternalDSP where
  stft : List ℚ → ℤ → String → STFTResult
  lstft : List ℚ → String → List (List ℚ)
  melFilterBank : ℤ → ℕ → List (List ℚ)

/-- Window identifiers enumerated in the source docstring (lines 114-133)
and in spec §6. -/
def supportedWindows : List String :=
  ["boxcar", "triang", "blackman", "hamming", "hann", "bartlett",
   "flattop", "parzen", "bohman", "blackmanharris", "nuttall", "barthann",
   "kaiser", "gaussian", "general_gaussian", "slepian", "dpss", "chebwin",
   "exponential", "tukey"]

/-- Modelled from the spec: the external routine scipy.signal.spectrogram.
Per §6 the window identifier comes from the enumerated set and an unknown
identifier is rejected by the external routine with a Python ValueError
(the failure the spec names UnsupportedWindow).  No validation of the
waveform or of the sample rate is performed: spec §7 notes that raising
InvalidInput would correct the source, i.e. the source has no such check.
The numeric transform itself is the abstract kernel E.stft. -/
def scipySpectrogram (E : ExternalDSP) (x : List ℚ) (fs : ℤ) (window : String) :
    Except PyErr STFTResult :=
  if window ∈ supportedWindows then Except.ok (E.stft x fs window)
  else Except.error (PyErr.valueError "Unknown window type.")

/-- Translation of `_spectrogram` (lines 59-76): a 2-D input is reduced to
its first column `songData[:, 0]`, then scipy.signal.spectrogram is called
and its triple is unpacked into the three instance attributes.  The tuple
assignment happens only after the call returns, so on an exception no
attribute is written. -/
def _spectrogram (E : ExternalDSP) (s : SpectroState) (songData : Waveform)
    (songSampleRate : ℤ) (windowType : String) : Except PyErr SpectroState :=
  match songData with
  | Waveform.twoD rows =>
      (scipySpectrogram E (rows.map (fun row => row.headI)) songSampleRate windowType).map
        (fun r => { s with sampleFreqs := some r.sampleFreqs,
                           sampleTime := some r.sampleTime,
                           colorMesh := some r.colorMesh })
  | Waveform.oneD xs =>
      (scipySpectrogram E xs songSampleRate windowType).map
        (fun r => { s with sampleFreqs := some r.sampleFreqs,
                           sampleTime := some r.sampleTime,
                           colorMesh := some r.colorMesh })

/-- Python truthiness of the optional numpy array `song`: None and an empty
array are falsy, a one-element array has the truth value of its element,
and a longer array raises ValueError (ambiguous truth value). -/
def npTruthy : Option (List ℚ) → Except PyErr Bool
  | none => Except.ok false
  | some [] => Except.ok false
  | some [x] => Except.ok (decide (x ≠ 0))
  | some (_ :: _ :: _) =>
      Except.error (PyErr.valueError "ambiguous truth value")

/-- Modelled from the spec: librosa derives the effective spectrogram for a
feature call from the pair (y, S): a given S is used as is, otherwise S is
computed from the raw waveform, and with neither input librosa raises its
ParameterError. -/
def librosaS (E : ExternalDSP) (y : Option (List ℚ))
    (S : Option (List (List ℚ))) (window : String) :
    Except PyErr (List (List ℚ)) :=
  match S with
  | some s => Except.ok s
  | none =>
      match y with
      | some w => Except.ok (E.lstft w window)
      | none => Except.error (PyErr.parameterError "Either y or S must be input.")

/-- Modelled from the spec: the frequency value of each of the n frequency
rows of a spectrogram, linearly spaced from 0 to half the sample rate. -/
def fftFrequencies (sr : ℤ) (nFreqs : ℕ) : List ℚ :=
  (List.range nFreqs).map
    (fun i => ((sr : ℚ) / 2) * (i : ℚ) / (((nFreqs - 1 : ℕ) : ℚ)))

/-- Column t of a row-major matrix, missing entries read as 0. -/
def colAt (S : List (List ℚ)) (t : ℕ) : List ℚ :=
  S.map (fun row => row.getD t 0)

/-- Sum of a list of rationals. -/
def qsum (xs : List ℚ) : ℚ := xs.foldl (fun a x => a + x) 0

/-- Dot product of two rational lists. -/
def qdot (xs ys : List ℚ) : ℚ :=
  (xs.zip ys).foldl (fun a p => a + p.1 * p.2) 0

/-- Modelled from the spec: librosa.feature.spectral_centroid on a given
spectrogram S computes, per time bin, the intensity-weighted mean frequency
of that bin's spectrum. -/
def spectralCentroid (sr : ℤ) (S : List (List ℚ)) : List ℚ :=
  let freqs := fftFrequencies sr S.length
  (List.range S.headI.length).map
    (fun t => qdot freqs (colAt S t) / qsum (colAt S t))

/-- First frequency whose running cumulative energy reaches the threshold. -/
def rolloffSearch : List ℚ → List ℚ → ℚ → ℚ → ℚ
  | f :: fs, v :: vs, acc, thr =>
      if thr ≤ acc + v then f else rolloffSearch fs vs (acc + v) thr
  | _, _, _, _ => 0

/-- Modelled from the spec: librosa.feature.spectral_rolloff on a given
spectrogram S computes, per time bin, the frequency below which 85 percent
of that bin's total spectral energy is contained. -/
def spectralRolloff (sr : ℤ) (S : List (List ℚ)) : List ℚ :=
  let freqs := fftFrequencies sr S.length
  (List.range S.headI.length).map
    (fun t => rolloffSearch freqs (colAt S t) 0 ((85 : ℚ) / 100 * qsum (colAt S t)))

/-- Row-major matrix product with rational entries. -/
def matMul (A B : List (List ℚ)) : List (List ℚ) :=
  A.map (fun arow => (List.range B.headI.length).map (fun t => qdot arow (colAt B t)))

/-- Modelled from the spec: librosa.feature.melspectrogram on a given
spectrogram S re-bins S onto the mel scale by applying the triangular mel
filter bank as a matrix product. -/
def melSpectrogramCalc (E : ExternalDSP) (sr : ℤ) (S : List (List ℚ)) :
    List (List ℚ) :=
  matMul (E.melFilterBank sr S.length) S

/-- Raw numpy ndarray constructor as invoked on line 138 (line 4 imports
ndarray from numpy): its positional parameters are (shape, dtype, buffer),
and an array of rationals is not a valid shape (nor is an array a valid
dtype), so the call always raises TypeError after its three arguments have
been evaluated; it never produces a FeatureBundle. -/
def npNdarray (shape dtype : List ℚ) (buffer : List (List ℚ)) :
    Except PyErr FeatureBundle :=
  Except.error (PyErr.typeError "expected a sequence of integers or a single integer")

/-- Translation of `_spectralFeatures` (lines 102-140).  The guard on line
135 is `not (song or sr)`, Python truthiness included; when it fires the
function only prints a usage message and returns None (modelled as
Except.ok none).  Otherwise the three librosa feature routines are invoked
independently on the same (song, S, sr, window) arguments, and their
results are passed positionally to the raw numpy ndarray constructor on
line 138, which raises TypeError; the return statement is therefore never
reached with a bundle. -/
def _spectralFeatures (E : ExternalDSP) (song : Option (List ℚ))
    (S : Option (List (List ℚ))) (sr : ℤ) (window : String) :
    Except PyErr (Option FeatureBundle) := do
  let t ← npTruthy song
  if ¬ (t = true ∨ sr ≠ 0) then
    Except.ok none
  else do
    let sC ← librosaS E song S window
    let sR ← librosaS E song S window
    let sM ← librosaS E song S window
    let fb ← npNdarray (spectralCentroid sr sC) (spectralRolloff sr sR)
      (melSpectrogramCalc E sr sM)
    Except.ok (some fb)

/-- Python value stored under the features key: json-serialised form of the
features attribute, None becoming JSON null. -/
def pyFeatures : Option FeatureBundle → JValue
  | none => JValue.jnull
  | some fb => JValue.jfeatures fb

/-- Translation of `_saveFormat` (lines 78-100): builds the container
dictionary (only color_mesh when compressed, otherwise the three keys),
appends the features key whenever featurize is true, stores the container
on the instance and writes it to `folder+filename+".json"`.  Calling
`.tolist()` on a still-None attribute raises AttributeError. -/
def _saveFormat (s : SpectroState) (folder filename : String)
    (featurize compressed : Bool) : Except PyErr (SpectroState × FileWrite) := do
  let base ←
    if compressed then
      match s.colorMesh with
      | some cm => Except.ok [("color_mesh", JValue.jmat cm)]
      | none => Except.error (PyErr.attributeError "NoneType has no attribute tolist")
    else
      match s.sampleFreqs, s.sampleTime, s.colorMesh with
      | some sf, some st, some cm =>
          Except.ok [("sample_frequencies", JValue.jlist sf),
                     ("sample_time", JValue.jlist st),
                     ("color_mesh", JValue.jmat cm)]
      | _, _, _ => Except.error (PyErr.attributeError "NoneType has no attribute tolist")
  let container := if featurize then base ++ [("features", pyFeatures s.features)] else base
  Except.ok ({ s with container := some container },
             { path := folder ++ filename ++ ".json", content := container })

/-- Translation of `__call__` (lines 31-57): `_spectrogram` runs first,
unconditionally; if featureize, `_spectralFeatures(None, self.colorMesh,
songSR, window)` is stored into self.features; if fileName is truthy,
`_saveFormat` runs with folder '' when path is None and with path
otherwise.  An uncaught exception leaves the instance with the attributes
it had at the moment of the raise; the error case therefore carries that
state. -/
def __call__ (E : ExternalDSP) (s : SpectroState) (songData : Waveform)
    (songSR : ℤ) (window : String) (fileName : String) (path : Option String)
    (compressed featureize : Bool) :
    Except (PyErr × SpectroState) (SpectroState × List FileWrite) :=
  match _spectrogram E s songData songSR window with
  | Except.error e => Except.error (e, s)
  | Except.ok s1 =>
    let afterFeat : Except (PyErr × SpectroState) SpectroState :=
      if featureize then
        match _spectralFeatures E none s1.colorMesh songSR window with
        | Except.error e => Except.error (e, s1)
        | Except.ok f => Except.ok { s1 with features := f }
      else Except.ok s1
    match afterFeat with
    | Except.error e => Except.error e
    | Except.ok s2 =>
      if fileName ≠ "" then
        let folder := match path with | none => "" | some p => p
        match _saveFormat s2 folder fileName featureize compressed with
        | Except.error e => Except.error (e, s2)
        | Except.ok (s3, fw) => Except.ok (s3, [fw])
      else Except.ok (s2, [])

/-- Written from the spec, §4.4 Orchestration: step 1 invokes Transform
unconditionally; step 2, if featurize, invokes Feature Extraction with the
just-computed intensity matrix and the caller's sample rate and stores the
result; step 3, if outputName is provided, invokes Serialization at
outputPath (defaulting to the empty path) with the compressed and
featurize flags. -/
def specOrchestration (E : ExternalDSP) (s : SpectroState) (waveform : Waveform)
    (sampleRate : ℤ) (window : String) (outputName : String)
    (outputPath : Option String) (compressed featurize : Bool) :
    Except (PyErr × SpectroState) (SpectroState × List FileWrite) := do
  let s1 ← (_spectrogram E s waveform sampleRate window).mapError (fun e => (e, s))
  let s2 ←
    if featurize then
      ((_spectralFeatures E none s1.colorMesh sampleRate window).map
        (fun fb => { s1 with features := fb })).mapError (fun e => (e, s1))
    else pure s1
  if outputName ≠ "" then
    ((_saveFormat s2 (outputPath.getD "") outputName featurize compressed).map
      (fun p => (p.1, [p.2]))).mapError (fun e => (e, s2))
  else pure (s2, [])

/-- State of the instance after a run, whether it raised or returned. -/
def stateOf : Except (PyErr × SpectroState) (SpectroState × List FileWrite) → SpectroState
  | Except.ok (s, _) => s
  | Except.error (_, s) => s

/-- Files written during a run (empty when the run raised before writing). -/
def filesOf : Except (PyErr × SpectroState) (SpectroState × List FileWrite) → List FileWrite
  | Except.ok (_, fws) => fws
  | Except.error _ => []

/-- True when the run returned without raising. -/
def runOk : Except (PyErr × SpectroState) (SpectroState × List FileWrite) → Bool
  | Except.ok _ => true
  | Except.error _ => false

/-- Files produced by one `_saveFormat` invocation. -/
def saveFilesOf : Except PyErr (SpectroState × FileWrite) → List FileWrite
  | Except.ok (_, fw) => [fw]
  | Except.error _ => []

/-- Concrete instantiation of the external numeric routines, used to
evaluate the development on closed inputs: the kernel reports one zero
frequency bin, one time bin per sample, and the raw samples as the single
intensity row; the mel filter bank is a single all-ones row. -/
def E₀ : ExternalDSP :=
  { stft := fun x fs _ =>
      { sampleFreqs := [0, (fs : ℚ) / 2], sampleTime := [0], colorMesh := [x] },
    lstft := fun x _ => [x],
    melFilterBank := fun _ n => [List.replicate n 1] }

/-- Mono signal actually handed to the external transform: a 1-D input as
is, a 2-D input reduced to its first column. -/
def monoOf : Waveform → List ℚ
  | Waveform.oneD xs => xs
  | Waveform.twoD rows => rows.map (fun row => row.headI)

/-- Helper: a successful `_spectrogram` only rewrites the three transform
attributes; features and container are untouched. -/
theorem spectrogram_ok_frame (E : ExternalDSP) (s : SpectroState) (d : Waveform)
    (fs : ℤ) (w : String) (s1 : SpectroState)
    (h : _spectrogram E s d fs w = Except.ok s1) :
    s1.features = s.features ∧ s1.container = s.container := by
  cases d <;>
    ( simp only [_spectrogram, scipySpectrogram] at h
      split at h
      · injection h with h2
        subst h2
        exact ⟨rfl, rfl⟩
      · simp [Except.map] at h )

/-- C1: for every stereo waveform with exactly two columns [A, B], every
positive sample rate and every supported window, Transform produces the
same result as Transform on the mono waveform A alone; the second channel
is discarded. -/
theorem c1_stereo_first_channel (E : ExternalDSP) (s : SpectroState)
    (AB : List (ℚ × ℚ)) (fs : ℤ) (w : String)
    (hw : w ∈ supportedWindows) (hfs : 0 < fs) :
    _spectrogram E s (Waveform.twoD (AB.map (fun p => [p.1, p.2]))) fs w =
      _spectrogram E s (Waveform.oneD (AB.map Prod.fst)) fs w := by
  have hmap : List.map (fun row => row.headI) (AB.map (fun p => [p.1, p.2])) =
      AB.map Prod.fst := by
    induction AB with
    | nil => rfl
    | cons a t ih => simp [ih]
  simp [_spectrogram, hmap]

/-- Witness for C1 at a concrete stereo input. -/
theorem c1_stereo_first_channel_witness :
    _spectrogram E₀ initState (Waveform.twoD [[1, 3], [2, 4]]) 22050 "hann" =
      _spectrogram E₀ initState (Waveform.oneD [1, 2]) 22050 "hann" :=
  c1_stereo_first_channel E₀ initState [(1, 3), (2, 4)] 22050 "hann"
    (by decide) (by decide)

/-- State with the three transform attributes populated, as after a
successful transform; features and container still None. -/
def sFull : SpectroState :=
  { sampleFreqs := some [0], sampleTime := some [0], colorMesh := some [[1, 2]],
    features := none, container := none }

/-- Container produced by an uncompressed, feature-free save of sFull. -/
def sFullContent : List (String × JValue) :=
  [("sample_frequencies", JValue.jlist [0]), ("sample_time", JValue.jlist [0]),
   ("color_mesh", JValue.jmat [[1, 2]])]

/-- C2 counterexample: a serialization call with compressed and featurize
both true, on a state holding a computed mesh and the only reachable
features value None, persists a document whose key set is
[color_mesh, features] (the features value being null), so a compressed
document does not contain only the color_mesh key and the features key
appears without any FeatureBundle being available, contrary to the claim. -/
theorem c2_compressed_keys_counterexample :
    (saveFilesOf (_saveFormat sFull "" "out" true true)).map
        (fun fw => fw.content.map Prod.fst) =
      [["color_mesh", "features"]] ∧
    (saveFilesOf (_saveFormat sFull "" "out" true true)).map
        (fun fw => fw.content) =
      [[("color_mesh", JValue.jmat [[1, 2]]), ("features", JValue.jnull)]] ∧
    (["color_mesh", "features"] : List String) ≠ ["color_mesh"] := by
  decide

/-- C2 amended: the key set of the persisted document is a function of
(compressed, featurize): compressed gives [color_mesh] and uncompressed
gives the three keys, and in both cases the features key is appended
exactly when featurize is true, regardless of compression and of whether a
FeatureBundle is available (a missing bundle is serialised as null). -/
theorem c2_container_keys_amended (s : SpectroState) (folder filename : String)
    (fz cp : Bool) (out : SpectroState × FileWrite)
    (h : _saveFormat s folder filename fz cp = Except.ok out) :
    out.2.content.map Prod.fst =
      ((if cp then ["color_mesh"]
        else ["sample_frequencies", "sample_time", "color_mesh"]) ++
       (if fz then ["features"] else [])) := by
  rcases s with ⟨sf, st, cm, ft, ct⟩
  cases cp <;> cases fz <;> cases sf <;> cases st <;> cases cm <;>
    simp [_saveFormat, bind, Except.bind] at h <;> rw [← h] <;> simp

/-- Witness for the amended C2 at a concrete uncompressed, feature-free
save. -/
theorem c2_container_keys_witness :
    (({ sFull with container := some sFullContent },
       ({ path := "f.json", content := sFullContent } : FileWrite)) :
        SpectroState × FileWrite).2.content.map Prod.fst =
      ((if false then ["color_mesh"]
        else ["sample_frequencies", "sample_time", "color_mesh"]) ++
       (if false then ["features"] else [])) :=
  c2_container_keys_amended sFull "" "f" false false
    ({ sFull with container := some sFullContent },
     { path := "f.json", content := sFullContent }) (by decide)

/-- C3 counterexample: Transform does not fail on the inputs the claim
says it rejects: the run with sample rate 0 returns successfully, the
retained state is replaced and the output file is written, and the run on
the empty waveform returns successfully as well. -/
theorem c3_no_invalid_input_counterexample :
    runOk (__call__ E₀ initState (Waveform.oneD [1, 2, 3]) 0 "hann" "out"
        none false false) = true ∧
    (stateOf (__call__ E₀ initState (Waveform.oneD [1, 2, 3]) 0 "hann" "out"
        none false false)).colorMesh = some [[1, 2, 3]] ∧
    stateOf (__call__ E₀ initState (Waveform.oneD [1, 2, 3]) 0 "hann" "out"
        none false false) ≠ initState ∧
    (filesOf (__call__ E₀ initState (Waveform.oneD [1, 2, 3]) 0 "hann" "out"
        none false false)).map FileWrite.path = ["out.json"] ∧
    runOk (__call__ E₀ initState (Waveform.oneD []) 22050 "hann" "out2"
        none false false) = true := by
  decide

/-- C3 amended: Transform performs no validation of the waveform or the
sample rate: for every waveform (the empty one included) and every sample
rate (non-positive ones included), any supported window makes the
transform succeed and replace the three retained attributes with the
kernel output; with an output name the file is then written as usual. -/
theorem c3_no_validation_amended (E : ExternalDSP) (s : SpectroState)
    (songData : Waveform) (fs : ℤ) (w : String) (hw : w ∈ supportedWindows) :
    _spectrogram E s songData fs w =
      Except.ok { s with
        sampleFreqs := some (E.stft (monoOf songData) fs w).sampleFreqs,
        sampleTime := some (E.stft (monoOf songData) fs w).sampleTime,
        colorMesh := some (E.stft (monoOf songData) fs w).colorMesh } := by
  cases songData <;> simp [_spectrogram, scipySpectrogram, monoOf, hw, Except.map]

/-- Witness for the amended C3 on the empty waveform with a negative
sample rate. -/
theorem c3_no_validation_witness :
    _spectrogram E₀ initState (Waveform.oneD []) (-3) "hann" =
      Except.ok { initState with
        sampleFreqs := some (E₀.stft (monoOf (Waveform.oneD [])) (-3) "hann").sampleFreqs,
        sampleTime := some (E₀.stft (monoOf (Waveform.oneD [])) (-3) "hann").sampleTime,
        colorMesh := some (E₀.stft (monoOf (Waveform.oneD [])) (-3) "hann").colorMesh } :=
  c3_no_validation_amended E₀ initState (Waveform.oneD []) (-3) "hann" (by decide)

/-- C4: with neither a waveform nor an intensity matrix supplied (and the
default sample rate 22050), the guard on line 135 does not fire, no
InvalidInput is reported and no None is returned; the call instead reaches
the librosa feature routines with no input, which raise their own
ParameterError. -/
theorem c4_guard_misses_missing_inputs :
    _spectralFeatures E₀ none none 22050 "hann" =
      Except.error (PyErr.parameterError "Either y or S must be input.") ∧
    _spectralFeatures E₀ none none 22050 "hann" ≠ Except.ok none := by
  decide

/-- C5: the claim says every successful extraction returns the
three-component bundle, but no successful extraction exists: on a valid
input (an intensity matrix, the default sample rate, window hann) the
three feature routines are computed independently and then handed to the
raw numpy ndarray constructor of line 138, which raises TypeError, so the
call errors out and no FeatureBundle is ever returned. -/
theorem c5_ndarray_type_error :
    _spectralFeatures E₀ none (some [[1, 2]]) 22050 "hann" =
      Except.error
        (PyErr.typeError "expected a sequence of integers or a single integer") ∧
    (∀ fb : FeatureBundle,
      _spectralFeatures E₀ none (some [[1, 2]]) 22050 "hann" ≠
        Except.ok (some fb)) := by
  have h : _spectralFeatures E₀ none (some [[1, 2]]) 22050 "hann" =
      Except.error
        (PyErr.typeError "expected a sequence of integers or a single integer") := by
    decide
  exact ⟨h, fun fb hc => Except.noConfusion (h ▸ hc)⟩

/-- C6: a window identifier outside the enumerated set makes the whole run
fail with the unknown-window ValueError (the failure the spec names
UnsupportedWindow), and the retained state is exactly the prior state: no
attribute has been mutated. -/
theorem c6_unknown_window_no_mutation (E : ExternalDSP) (s : SpectroState)
    (songData : Waveform) (songSR : ℤ) (w fileName : String)
    (path : Option String) (compressed featureize : Bool)
    (hw : w ∉ supportedWindows) :
    __call__ E s songData songSR w fileName path compressed featureize =
      Except.error (PyErr.valueError "Unknown window type.", s) := by
  cases songData <;>
    simp [__call__, _spectrogram, scipySpectrogram, hw, Except.map]

/-- Witness for C6 at a concrete unknown window identifier. -/
theorem c6_unknown_window_no_mutation_witness :
    __call__ E₀ initState (Waveform.oneD [1, 2]) 22050 "zzz" "out" none false false =
      Except.error (PyErr.valueError "Unknown window type.", initState) :=
  c6_unknown_window_no_mutation E₀ initState (Waveform.oneD [1, 2]) 22050 "zzz"
    "out" none false false (by decide)

/-- Reduction rule: mapping the error of a success is the identity. -/
theorem exMapError_ok {e d a : Type} (f : e → d) (x : a) :
    Except.mapError f (Except.ok x : Except e a) = Except.ok x := rfl

/-- Reduction rule: mapping the error of a failure applies the function. -/
theorem exMapError_error {e d a : Type} (f : e → d) (err : e) :
    Except.mapError f (Except.error err : Except e a) = Except.error (f err) := rfl

/-- Reduction rule: mapping over a success applies the function. -/
theorem exMap_ok {e a b : Type} (f : a → b) (x : a) :
    Except.map f (Except.ok x : Except e a) = Except.ok (f x) := rfl

/-- Reduction rule: mapping over a failure is the identity. -/
theorem exMap_error {e a b : Type} (f : a → b) (err : e) :
    Except.map f (Except.error err : Except e a) = Except.error err := rfl

/-- Reduction rule: binding a success applies the continuation. -/
theorem exBind_ok {e a b : Type} (x : a) (f : a → Except e b) :
    ((Except.ok x : Except e a) >>= f) = f x := rfl

/-- Reduction rule: binding a failure short-circuits. -/
theorem exBind_error {e a b : Type} (err : e) (f : a → Except e b) :
    ((Except.error err : Except e a) >>= f) = Except.error err := rfl

/-- Reduction rule: binding a pure value applies the continuation. -/
theorem exBind_pure {e a b : Type} (x : a) (f : a → Except e b) :
    ((pure x : Except e a) >>= f) = f x := rfl

/-- Helper: the serialization step of the caller agrees with the
map-and-relabel form used in the orchestration written from the spec. -/
theorem saveStep (s2 : SpectroState) (folder fileName : String) (fz cp : Bool) :
    (match _saveFormat s2 folder fileName fz cp with
      | Except.error e => (Except.error (e, s2) :
          Except (PyErr × SpectroState) (SpectroState × List FileWrite))
      | Except.ok (s3, fw) => Except.ok (s3, [fw])) =
    Except.mapError (fun e => (e, s2))
      (Except.map (fun p => (p.1, [p.2])) (_saveFormat s2 folder fileName fz cp)) := by
  cases _saveFormat s2 folder fileName fz cp with
  | error e => rfl
  | ok out => cases out; rfl

/-- C7: the caller runs the three steps in the spec's fixed forward order:
Transform unconditionally first, Feature Extraction exactly when featurize
is set (on the just-computed intensity matrix and the caller's sample
rate), Serialization exactly when an output name is provided (with the
compressed and featurize flags passed through); the translation of
`__call__` coincides with the orchestration written from spec §4.4. -/
theorem c7_orchestration_order (E : ExternalDSP) (s : SpectroState)
    (songData : Waveform) (songSR : ℤ) (window fileName : String)
    (path : Option String) (compressed featureize : Bool) :
    __call__ E s songData songSR window fileName path compressed featureize =
      specOrchestration E s songData songSR window fileName path compressed featureize := by
  unfold __call__ specOrchestration
  cases _spectrogram E s songData songSR window with
  | error e => rfl
  | ok s1 =>
    dsimp only
    simp only [exMapError_ok, exBind_ok]
    cases featureize with
    | false =>
      simp only [Bool.false_eq_true, reduceIte, exBind_pure]
      by_cases hf : fileName ≠ ""
      · simp only [if_pos hf]
        cases path with
        | none => exact saveStep s1 "" fileName false compressed
        | some p => exact saveStep s1 p fileName false compressed
      · simp only [if_neg hf]
        rfl
    | true =>
      simp only [reduceIte]
      cases _spectralFeatures E none s1.colorMesh songSR window with
      | error e => simp only [exMap_error, exMapError_error, exBind_error]
      | ok f =>
        simp only [exMap_ok, exMapError_ok, exBind_ok]
        by_cases hf : fileName ≠ ""
        · simp only [if_pos hf]
          cases path with
          | none => exact saveStep { s1 with features := f } "" fileName true compressed
          | some p => exact saveStep { s1 with features := f } p fileName true compressed
        · simp only [if_neg hf]
          rfl

/-- Helper: the path of the file written by one `_saveFormat` call is the
bare concatenation of folder, filename and the ".json" suffix. -/
theorem saveFormat_path (s : SpectroState) (folder filename : String)
    (fz cp : Bool) :
    ∀ fw ∈ saveFilesOf (_saveFormat s folder filename fz cp),
      fw.path = folder ++ filename ++ ".json" := by
  intro fw hfw
  rcases s with ⟨sf, st, cm, ft, ct⟩
  cases cp <;> cases sf <;> cases st <;> cases cm <;>
    simp [_saveFormat, saveFilesOf, bind, Except.bind] at hfw <;>
    subst hfw <;> rfl

/-- Helper: any file written by a full run lands at the concatenation of
the folder (the given path, defaulting to the empty string), the file name
and ".json". -/
theorem call_files_path (E : ExternalDSP) (s : SpectroState) (songData : Waveform)
    (songSR : ℤ) (window fileName : String) (path : Option String) (cp fz : Bool) :
    ∀ fw ∈ filesOf (__call__ E s songData songSR window fileName path cp fz),
      fw.path = (path.getD "") ++ fileName ++ ".json" := by
  intro fw
  unfold __call__
  cases _spectrogram E s songData songSR window with
  | error e => intro hfw; simp [filesOf] at hfw
  | ok s1 =>
    dsimp only
    have hsave : ∀ (s2 : SpectroState),
        fw ∈ filesOf (match _saveFormat s2 (path.getD "") fileName fz cp with
          | Except.error e => Except.error (e, s2)
          | Except.ok (s3, fw2) => Except.ok (s3, [fw2])) →
        fw.path = (path.getD "") ++ fileName ++ ".json" := by
      intro s2 hmem
      cases h2 : _saveFormat s2 (path.getD "") fileName fz cp with
      | error e => rw [h2] at hmem; simp [filesOf] at hmem
      | ok out =>
        rcases out with ⟨s3, fw2⟩
        rw [h2] at hmem
        simp [filesOf] at hmem
        subst hmem
        exact saveFormat_path s2 (path.getD "") fileName fz cp fw
          (by simp [saveFilesOf, h2])
    cases fz with
    | false =>
      simp only [Bool.false_eq_true, reduceIte]
      by_cases hf : fileName ≠ ""
      · simp only [if_pos hf]
        cases path with
        | none => exact hsave s1
        | some p => exact hsave s1
      · simp only [if_neg hf]
        intro hfw; simp [filesOf] at hfw
    | true =>
      simp only [reduceIte]
      cases _spectralFeatures E none s1.colorMesh songSR window with
      | error e => intro hfw; simp [filesOf] at hfw
      | ok f =>
        dsimp only
        by_cases hf : fileName ≠ ""
        · simp only [if_pos hf]
          cases path with
          | none => exact hsave { s1 with features := f }
          | some p => exact hsave { s1 with features := f }
        · simp only [if_neg hf]
          intro hfw; simp [filesOf] at hfw

/-- C8: every file written by the serializer has path exactly
folder ++ filename ++ ".json" with no separator inserted between folder
and filename, and a run invoked with no path supplied defaults the folder
to the empty string, writing to "" ++ fileName ++ ".json". -/
theorem c8_output_path :
    (∀ (s : SpectroState) (folder filename : String) (fz cp : Bool),
        ∀ fw ∈ saveFilesOf (_saveFormat s folder filename fz cp),
          fw.path = folder ++ filename ++ ".json") ∧
    (∀ (E : ExternalDSP) (s : SpectroState) (songData : Waveform) (songSR : ℤ)
        (window fileName : String) (cp fz : Bool),
        ∀ fw ∈ filesOf (__call__ E s songData songSR window fileName none cp fz),
          fw.path = "" ++ fileName ++ ".json") :=
  ⟨saveFormat_path,
   fun E s songData songSR window fileName cp fz fw hfw =>
     call_files_path E s songData songSR window fileName none cp fz fw hfw⟩

/-- Witness for C8: a concrete save into folder "tests/" produces the path
"tests/out.json", the bare concatenation with no separator added. -/
theorem c8_output_path_witness :
    ({ path := "tests/out.json", content := sFullContent } : FileWrite).path =
      "tests/" ++ "out" ++ ".json" :=
  c8_output_path.1 sFull "tests/" "out" false false
    { path := "tests/out.json", content := sFullContent } (by decide)

/-- Helper: a successful `_saveFormat` rewrites only the container
attribute; the other four attributes are untouched. -/
theorem saveFormat_ok_frame (s : SpectroState) (folder filename : String)
    (fz cp : Bool) (out : SpectroState × FileWrite)
    (h : _saveFormat s folder filename fz cp = Except.ok out) :
    out.1.features = s.features ∧ out.1.sampleFreqs = s.sampleFreqs ∧
    out.1.sampleTime = s.sampleTime ∧ out.1.colorMesh = s.colorMesh := by
  rcases s with ⟨sf, st, cm, ft, ct⟩
  cases cp <;> cases sf <;> cases st <;> cases cm <;>
    simp [_saveFormat, bind, Except.bind] at h <;> rw [← h]
  all_goals exact ⟨rfl, rfl, rfl, rfl⟩

/-- C9: a run with featureize false leaves the features attribute exactly
as it was (None right after initialisation), and when no file name is
given the container attribute is also left unchanged; only the three
transform attributes (and, when saving, the container) are replaced. -/
theorem c9_features_frame (E : ExternalDSP) (s : SpectroState)
    (songData : Waveform) (songSR : ℤ) (window fileName : String)
    (path : Option String) (compressed featureize : Bool)
    (h : featureize = false) :
    (stateOf (__call__ E s songData songSR window fileName path compressed featureize)).features = s.features ∧
    (fileName = "" →
      (stateOf (__call__ E s songData songSR window fileName path compressed featureize)).container = s.container) := by
  subst h
  unfold __call__
  cases h1 : _spectrogram E s songData songSR window with
  | error e => exact ⟨rfl, fun _ => rfl⟩
  | ok s1 =>
    obtain ⟨hft, hct⟩ := spectrogram_ok_frame E s songData songSR window s1 h1
    dsimp only
    simp only [Bool.false_eq_true, reduceIte]
    by_cases hf : fileName ≠ ""
    · simp only [if_pos hf]
      refine ⟨?_, fun h0 => absurd h0 hf⟩
      cases path with
      | none =>
        dsimp only
        cases h2 : _saveFormat s1 "" fileName false compressed with
        | error e => simpa [stateOf] using hft
        | ok out =>
          obtain ⟨hf2, _, _, _⟩ :=
            saveFormat_ok_frame s1 "" fileName false compressed out h2
          rcases out with ⟨s3, fw⟩
          simpa [stateOf] using hf2.trans hft
      | some p =>
        dsimp only
        cases h2 : _saveFormat s1 p fileName false compressed with
        | error e => simpa [stateOf] using hft
        | ok out =>
          obtain ⟨hf2, _, _, _⟩ :=
            saveFormat_ok_frame s1 p fileName false compressed out h2
          rcases out with ⟨s3, fw⟩
          simpa [stateOf] using hf2.trans hft
    · simp only [if_neg hf]
      exact ⟨hft, fun _ => hct⟩

/-- Witness for C9 at a concrete feature-free run. -/
theorem c9_features_frame_witness :
    (stateOf (__call__ E₀ initState (Waveform.oneD [1]) 22050 "hann" "out"
        none false false)).features = initState.features ∧
    ("out" = "" →
      (stateOf (__call__ E₀ initState (Waveform.oneD [1]) 22050 "hann" "out"
          none false false)).container = initState.container) :=
  c9_features_frame E₀ initState (Waveform.oneD [1]) 22050 "hann" "out"
    none false false rfl

/-- C10: the missing-input branch of `_spectralFeatures` tests
`not (song or sr)`, not the matrix S, so with song None (as the public
entry point always passes) its truthiness is False and any nonzero sample
rate makes the branch unreachable: the call never returns the reported
InvalidInput outcome, even when both the waveform and the matrix are
absent. -/
theorem c10_guard_unreachable (E : ExternalDSP) (S : Option (List (List ℚ)))
    (sr : ℤ) (w : String) (h : sr ≠ 0) :
    npTruthy (none : Option (List ℚ)) = Except.ok false ∧
    _spectralFeatures E none S sr w ≠ Except.ok none := by
  refine ⟨rfl, ?_⟩
  cases S <;> simp [_spectralFeatures, npTruthy, librosaS, npNdarray, bind, Except.bind, h]

/-- Witness for C10 at the default sample rate with both inputs absent. -/
theorem c10_guard_unreachable_witness :
    npTruthy (none : Option (List ℚ)) = Except.ok false ∧
    _spectralFeatures E₀ none none 22050 "hann" ≠ Except.ok none :=
  c10_guard_unreachable E₀ none 22050 "hann" (by decide)
